import Mathlib

/-!
Shallow embedding of `custom_components/opi_gpio/cover.py` (class `OPiGPIOCover`):
a relay-driven cover whose position is simulated by a self-rescheduling
countdown timer.

Modelling conventions:
* Python floats are modelled as exact rationals (`ℚ`); every computation the
  claims exercise stays in a range where IEEE double rounding agrees with
  exact rational arithmetic.
* Python `int(...)` is truncation toward zero, `pytrunc` below.
* Side effects on GPIO pins (`write_output`) and blocking sleeps are recorded
  as an explicit `List Action` returned alongside the new entity state.
* The pending `threading.Timer` is modelled as the `timer` field: `none` means
  no scheduled `_counter` call is outstanding; `some (i, ctx)` means a call
  `_counter(i, _done-closure-over-ctx)` is scheduled.  Delivering that call is
  `fireTimer`; one delivery corresponds to one elapsed one-second interval.
  `Timer.cancel` on an expired timer is a no-op, so an expired handle is
  behaviourally identical to `none`.
* In Python, a configured duration of 0 makes `set_cover_position` raise
  `ZeroDivisionError`; in `ℚ` division by zero yields 0 and the command
  becomes a no-op.  Claims touching `set_cover_position` assume positive
  configured durations, where the model is exact.
-/

namespace OpiGpio

/-- Python `int(...)` truncation toward zero on a rational. -/
def pytrunc (q : ℚ) : ℤ := if 0 ≤ q then ⌊q⌋ else ⌈q⌉

/-- Per-cover configuration, from `OPiGPIOCover.__init__` (pins, relay
polarity, intermediate mode, travel durations; durations are
`cv.positive_int`, i.e. natural numbers). -/
structure Config where
  closePin : ℕ
  stopPin : ℕ
  openPin : ℕ
  invertRelay : Bool
  intermediateMode : Bool
  closeDuration : ℕ
  openDuration : ℕ
deriving DecidableEq

/-- The data captured by the `_done` closure built in `_update_position`:
the total tick count `duration`, the direction flag `is_open`, and whether
the final tick must also pulse the stop relay. -/
structure MotionCtx where
  duration : ℚ
  is_open : Bool
  need_stop : Bool
deriving DecidableEq

/-- Mutable entity state: `_state` (a Home Assistant state string),
`_attr_current_cover_position`, and the pending timer. -/
structure St where
  state : String
  position : ℤ
  timer : Option (ℚ × MotionCtx)
deriving DecidableEq

/-- Observable side effects: a GPIO write and a blocking sleep. -/
inductive Action where
  | write (pin : ℕ) (level : ℕ)
  | sleepFor (delay : ℕ)
deriving DecidableEq

/-- `_trigger(pin, val, delay)`: drive the pin to `val`, sleep `delay`
seconds, then drive it to the complement of `val`. -/
def trigger (pin val delay : ℕ) : List Action :=
  [Action.write pin val, Action.sleepFor delay,
   Action.write pin (if val = 1 then 0 else 1)]

/-- The relay active level: `0 if self._invert_relay else 1`. -/
def activeLevel (cfg : Config) : ℕ := if cfg.invertRelay then 0 else 1

/-- `stop_cover`: unconditionally pulse the stop pin for
`DEFAULT_RELAY_TIME = 1` second.  It touches nothing else. -/
def stop_cover (cfg : Config) (s : St) : St × List Action :=
  (s, trigger cfg.stopPin (activeLevel cfg) 1)

/-- The rate expression inside `_done`:
`int(i / duration * 100) if duration != 0 else 100`. -/
def coverRate (duration i : ℚ) : ℤ :=
  if duration ≠ 0 then pytrunc (i / duration * 100) else 100

/-- The `_done(i)` closure defined in `_update_position`: publish the
position derived from the remaining count `i`; on `i == 0` optionally pulse
stop, then finalize the state string from the published position. -/
def doneTick (cfg : Config) (ctx : MotionCtx) (i : ℚ) (s : St) : St × List Action :=
  let rate : ℤ := coverRate ctx.duration i
  let pos : ℤ := if ctx.is_open then 100 - rate else rate
  let s1 : St := { s with position := pos }
  if i = 0 then
    let stopRes : St × List Action :=
      if ctx.need_stop then stop_cover cfg s1 else (s1, [])
    let s2 := stopRes.1
    let s3 : St := if s2.position = 0 then { s2 with state := "closed" } else s2
    let s4 : St := if s3.position = 100 then { s3 with state := "open" } else s3
    (s4, stopRes.2)
  else
    (s1, [])

/-- `_counter(i, callback)`: when `i > 0`, schedule `_counter(i - 1)` one
second later and run the callback on `i - 1` immediately (synchronously);
otherwise run the callback on `0` without scheduling anything. -/
def counterStep (cfg : Config) (ctx : MotionCtx) (i : ℚ) (s : St) : St × List Action :=
  if 0 < i then
    let i1 := i - 1
    let s1 : St := { s with timer := some (i1, ctx) }
    doneTick cfg ctx i1 s1
  else
    doneTick cfg ctx 0 s

/-- `_update_position(duration, is_open, need_stop)`: cancel any pending
timer, then start the countdown at `duration`. -/
def update_position (cfg : Config) (duration : ℚ) (isOp needStop : Bool) (s : St) :
    St × List Action :=
  counterStep cfg ⟨duration, isOp, needStop⟩ duration { s with timer := none }

/-- `close_cover`: when not closed (position ≠ 0), set `_state = "closing"`,
pulse the close relay for 1 s, and start a countdown over `close_duration`. -/
def close_cover (cfg : Config) (s : St) : St × List Action :=
  if s.position = 0 then (s, [])
  else
    let s1 : St := { s with state := "closing" }
    let acts := trigger cfg.closePin (activeLevel cfg) 1
    let r := update_position cfg (cfg.closeDuration : ℚ) false false s1
    (r.1, acts ++ r.2)

/-- `open_cover`: when closed (position = 0), set `_state = "opening"`,
pulse the open relay for 1 s (or the stop relay for
`DEFAULT_INTERMEDIATE_TIME = 5` s in intermediate mode), and start a
countdown over `open_duration`. -/
def open_cover (cfg : Config) (s : St) : St × List Action :=
  if s.position = 0 then
    let s1 : St := { s with state := "opening" }
    let acts :=
      if cfg.intermediateMode then trigger cfg.stopPin (activeLevel cfg) 5
      else trigger cfg.openPin (activeLevel cfg) 1
    let r := update_position cfg (cfg.openDuration : ℚ) true false s1
    (r.1, acts ++ r.2)
  else (s, [])

/-- `set_cover_position(position)`: direction from comparison with the
current position, tick count `delta / duration` (a float in the source),
and, when that count is nonzero, a relay pulse followed by a countdown with
`need_stop = True`.  No range check is performed on the target. -/
def set_cover_position (cfg : Config) (target : ℤ) (s : St) : St × List Action :=
  let isOp : Bool := decide (s.position < target)
  let duration : ℚ :=
    if isOp then ((target : ℚ) - (s.position : ℚ)) / (cfg.openDuration : ℚ)
    else ((s.position : ℚ) - (target : ℚ)) / (cfg.closeDuration : ℚ)
  if duration ≠ 0 then
    let acts := trigger (if isOp then cfg.openPin else cfg.closePin) (activeLevel cfg) 1
    let r := update_position cfg duration isOp true s
    (r.1, acts ++ r.2)
  else (s, [])

/-- Deliver the pending scheduled `_counter` call, if any (one elapsed
one-second tick interval). -/
def fireTimer (cfg : Config) (s : St) : St × List Action :=
  match s.timer with
  | none => (s, [])
  | some (i, ctx) => counterStep cfg ctx i { s with timer := none }

/-- Let `n` tick intervals elapse. -/
def runTimer (cfg : Config) : ℕ → St → St
  | 0, s => s
  | n + 1, s => (fireTimer cfg (runTimer cfg n s)).1

/-- Entity state right after `__init__`: `_state = STATE_CLOSED`,
`_attr_current_cover_position = 0`, no timer. -/
def initSt : St := { state := "closed", position := 0, timer := none }

/-- `async_added_to_hass` restoration: when a persisted state exists, copy
only its state string; the position attribute is never restored. -/
def restoreState (last : Option String) (s : St) : St :=
  match last with
  | none => s
  | some st => { s with state := st }

/-- A sample configuration: default 5-second travel durations, relays not
inverted, no intermediate mode. -/
def cfg0 : Config :=
  { closePin := 11, stopPin := 12, openPin := 13, invertRelay := false,
    intermediateMode := false, closeDuration := 5, openDuration := 5 }

/-- A fully open cover at rest. -/
def s100 : St := { state := "open", position := 100, timer := none }

/-- The state right after `close_cover` on a fully open cover. -/
def afterClose : St := (close_cover cfg0 s100).1

/-- The sample configuration with a zero open travel duration. -/
def cfgZ : Config := { cfg0 with openDuration := 0 }

/-- The state right after `set_cover_position(50)` from the initial state. -/
def afterSet50 : St := (set_cover_position cfg0 50 initSt).1

/-- The state right after `set_cover_position(33)` from the initial state. -/
def afterSet33 : St := (set_cover_position cfg0 33 initSt).1

/-- The state right after `set_cover_position(150)` from the initial state. -/
def afterSet150 : St := (set_cover_position cfg0 150 initSt).1

/-- The `_done` context built by `close_cover`. -/
def ctxClose (cfg : Config) : MotionCtx := ⟨(cfg.closeDuration : ℚ), false, false⟩

/-- The `_done` context built by `open_cover`. -/
def ctxOpen (cfg : Config) : MotionCtx := ⟨(cfg.openDuration : ℚ), true, false⟩

/-- Timer payloads reachable in a plain open/close motion: the remaining
count is a natural number bounded by the (nonnegative) countdown total. -/
def TimerNat (t : Option (ℚ × MotionCtx)) : Prop :=
  match t with
  | none => True
  | some (i, ctx) => 0 ≤ ctx.duration ∧ ∃ k : ℕ, i = (k : ℚ) ∧ (k : ℚ) ≤ ctx.duration

/-- Invariant for the range claim: position within [0, 100] and a
well-formed pending timer. -/
def InRange (s : St) : Prop := (0 ≤ s.position ∧ s.position ≤ 100) ∧ TimerNat s.timer

/-- Invariant of a single motion segment driven by context `ctx`: either the
countdown is exhausted, or the pending count is a natural number `k` and the
published position is exactly the one `_done` computed for `k`. -/
def Seg (ctx : MotionCtx) (s : St) : Prop :=
  s.timer = none ∨ ∃ k : ℕ, s.timer = some ((k : ℚ), ctx) ∧
    s.position = (if ctx.is_open then 100 - coverRate ctx.duration (k : ℚ)
                  else coverRate ctx.duration (k : ℚ))

theorem afterClose_eq :
    afterClose = { state := "closing", position := 80,
                   timer := some ((4 : ℚ), ⟨(5 : ℚ), false, false⟩) } := by
  norm_num [afterClose, close_cover, s100, cfg0, update_position, counterStep,
    doneTick, coverRate, pytrunc, trigger, activeLevel]

theorem pytrunc_of_nonneg {q : ℚ} (h : 0 ≤ q) : pytrunc q = ⌊q⌋ := if_pos h

theorem pytrunc_nonneg {q : ℚ} (h : 0 ≤ q) : 0 ≤ pytrunc q := by
  rw [pytrunc_of_nonneg h]
  exact Int.floor_nonneg.2 h

theorem pytrunc_le_hundred {q : ℚ} (h : q ≤ 100) : pytrunc q ≤ 100 := by
  unfold pytrunc
  by_cases h0 : 0 ≤ q
  · rw [if_pos h0]
    have h1 : ⌊q⌋ ≤ ⌊(100 : ℚ)⌋ := Int.floor_le_floor h
    simpa using h1
  · rw [if_neg h0]
    have h2 : ⌈q⌉ ≤ (0 : ℤ) := by
      rw [Int.ceil_le]
      push_cast
      exact le_of_lt (lt_of_not_le h0)
    omega

theorem pytrunc_mono {a b : ℚ} (ha : 0 ≤ a) (hab : a ≤ b) : pytrunc a ≤ pytrunc b := by
  rw [pytrunc_of_nonneg ha, pytrunc_of_nonneg (le_trans ha hab)]
  exact Int.floor_le_floor hab

theorem coverRate_nonneg {d i : ℚ} (hd : 0 ≤ d) (hi : 0 ≤ i) : 0 ≤ coverRate d i := by
  unfold coverRate
  by_cases h : d ≠ 0
  · rw [if_pos h]
    exact pytrunc_nonneg (by positivity)
  · rw [if_neg h]
    norm_num

theorem coverRate_le_hundred {d i : ℚ} (hi : 0 ≤ i) (hid : i ≤ d) :
    coverRate d i ≤ 100 := by
  unfold coverRate
  by_cases h : d ≠ 0
  · rw [if_pos h]
    have hd : 0 < d := lt_of_le_of_ne (le_trans hi hid) (Ne.symm h)
    have h1 : i / d ≤ 1 := (div_le_one hd).2 hid
    have h2 : i / d * 100 ≤ 100 := by nlinarith
    exact pytrunc_le_hundred h2
  · rw [if_neg h]

theorem coverRate_mono {d a b : ℚ} (hd : 0 ≤ d) (ha : 0 ≤ a) (hab : a ≤ b) :
    coverRate d a ≤ coverRate d b := by
  by_cases h : d ≠ 0
  · unfold coverRate
    rw [if_pos h, if_pos h]
    have hd0 : 0 < d := lt_of_le_of_ne hd (Ne.symm h)
    have h1 : a / d ≤ b / d := by gcongr
    have h2 : a / d * 100 ≤ b / d * 100 := by nlinarith
    exact pytrunc_mono (by positivity) h2
  · unfold coverRate
    rw [if_neg h, if_neg h]

theorem doneTick_fst_timer (cfg : Config) (ctx : MotionCtx) (i : ℚ) (s : St) :
    ((doneTick cfg ctx i s).1).timer = s.timer := by
  simp only [doneTick, stop_cover]
  split_ifs <;> rfl

theorem doneTick_fst_position (cfg : Config) (ctx : MotionCtx) (i : ℚ) (s : St) :
    ((doneTick cfg ctx i s).1).position =
      (if ctx.is_open then 100 - coverRate ctx.duration i else coverRate ctx.duration i) := by
  simp only [doneTick, stop_cover]
  split_ifs <;> rfl

theorem counterStep_pos (cfg : Config) (ctx : MotionCtx) {i : ℚ} (s : St) (h : 0 < i) :
    counterStep cfg ctx i s =
      doneTick cfg ctx (i - 1) { s with timer := some (i - 1, ctx) } := by
  unfold counterStep
  rw [if_pos h]

theorem counterStep_nonpos (cfg : Config) (ctx : MotionCtx) {i : ℚ} (s : St) (h : ¬ 0 < i) :
    counterStep cfg ctx i s = doneTick cfg ctx 0 s := by
  unfold counterStep
  rw [if_neg h]

theorem fireTimer_none (cfg : Config) {s : St} (h : s.timer = none) :
    fireTimer cfg s = (s, []) := by
  unfold fireTimer
  rw [h]

theorem fireTimer_some (cfg : Config) {s : St} {i : ℚ} {ctx : MotionCtx}
    (h : s.timer = some (i, ctx)) :
    fireTimer cfg s = counterStep cfg ctx i { s with timer := none } := by
  unfold fireTimer
  rw [h]

theorem runTimer_zero (cfg : Config) (s : St) : runTimer cfg 0 s = s := rfl

theorem runTimer_succ (cfg : Config) (n : ℕ) (s : St) :
    runTimer cfg (n + 1) s = (fireTimer cfg (runTimer cfg n s)).1 := rfl

theorem runTimer_step (cfg : Config) (n : ℕ) (s a b : St)
    (h1 : runTimer cfg n s = a) (h2 : (fireTimer cfg a).1 = b) :
    runTimer cfg (n + 1) s = b := by
  rw [runTimer_succ, h1, h2]

theorem inRange_counterStep (cfg : Config) (ctx : MotionCtx) (hd : 0 ≤ ctx.duration)
    (k : ℕ) (hkd : (k : ℚ) ≤ ctx.duration) (s : St) (hts : TimerNat s.timer) :
    InRange (counterStep cfg ctx (k : ℚ) s).1 := by
  by_cases hk : 0 < (k : ℚ)
  · rw [counterStep_pos cfg ctx _ hk]
    have h1k : (1 : ℕ) ≤ k := by exact_mod_cast hk
    have h1q : (1 : ℚ) ≤ (k : ℚ) := by exact_mod_cast h1k
    have hcast : ((k - 1 : ℕ) : ℚ) = (k : ℚ) - 1 := by
      rw [Nat.cast_sub h1k, Nat.cast_one]
    have h0 : (0 : ℚ) ≤ (k : ℚ) - 1 := by linarith
    have hr0 := coverRate_nonneg hd h0
    have hr1 := coverRate_le_hundred h0 (by linarith : (k : ℚ) - 1 ≤ ctx.duration)
    refine ⟨⟨?_, ?_⟩, ?_⟩
    · rw [doneTick_fst_position]
      split_ifs <;> omega
    · rw [doneTick_fst_position]
      split_ifs <;> omega
    · rw [doneTick_fst_timer]
      show TimerNat (some ((k : ℚ) - 1, ctx))
      exact ⟨hd, k - 1, hcast.symm, by rw [hcast]; linarith⟩
  · rw [counterStep_nonpos cfg ctx _ hk]
    have hr0 := coverRate_nonneg hd le_rfl
    have hr1 := coverRate_le_hundred (le_refl (0 : ℚ)) hd
    refine ⟨⟨?_, ?_⟩, ?_⟩
    · rw [doneTick_fst_position]
      split_ifs <;> omega
    · rw [doneTick_fst_position]
      split_ifs <;> omega
    · rw [doneTick_fst_timer]
      exact hts

theorem inRange_fireTimer (cfg : Config) {s : St} (h : InRange s) :
    InRange (fireTimer cfg s).1 := by
  obtain ⟨hpos, htn⟩ := h
  cases ht : s.timer with
  | none =>
    rw [fireTimer_none cfg ht]
    exact ⟨hpos, htn⟩
  | some p =>
    obtain ⟨i, ctx⟩ := p
    rw [fireTimer_some cfg ht]
    rw [ht] at htn
    have htn' : 0 ≤ ctx.duration ∧ ∃ k : ℕ, i = (k : ℚ) ∧ (k : ℚ) ≤ ctx.duration := htn
    obtain ⟨hd, k, hik, hkd⟩ := htn'
    subst hik
    exact inRange_counterStep cfg ctx hd k hkd _ trivial

theorem inRange_runTimer (cfg : Config) (n : ℕ) {s : St} (h : InRange s) :
    InRange (runTimer cfg n s) := by
  induction n with
  | zero => exact h
  | succ n ih => rw [runTimer_succ] ; exact inRange_fireTimer cfg ih

theorem inRange_close_cover (cfg : Config) {s : St} (h0 : 0 ≤ s.position)
    (h1 : s.position ≤ 100) (ht : s.timer = none) : InRange (close_cover cfg s).1 := by
  by_cases hp : s.position = 0
  · simp only [close_cover]
    rw [if_pos hp]
    refine ⟨⟨h0, h1⟩, ?_⟩
    show TimerNat s.timer
    rw [ht]
    trivial
  · simp only [close_cover]
    rw [if_neg hp]
    exact inRange_counterStep cfg ⟨(cfg.closeDuration : ℚ), false, false⟩
      (Nat.cast_nonneg _) cfg.closeDuration le_rfl _ trivial

theorem inRange_open_cover (cfg : Config) {s : St} (h0 : 0 ≤ s.position)
    (h1 : s.position ≤ 100) (ht : s.timer = none) : InRange (open_cover cfg s).1 := by
  by_cases hp : s.position = 0
  · simp only [open_cover]
    rw [if_pos hp]
    exact inRange_counterStep cfg ⟨(cfg.openDuration : ℚ), true, false⟩
      (Nat.cast_nonneg _) cfg.openDuration le_rfl _ trivial
  · simp only [open_cover]
    rw [if_neg hp]
    refine ⟨⟨h0, h1⟩, ?_⟩
    show TimerNat s.timer
    rw [ht]
    trivial

theorem seg_fireTimer (cfg : Config) {ctx : MotionCtx} (hd : 0 ≤ ctx.duration) {s : St}
    (h : Seg ctx s) :
    Seg ctx (fireTimer cfg s).1 ∧
      (if ctx.is_open then s.position ≤ (fireTimer cfg s).1.position
       else (fireTimer cfg s).1.position ≤ s.position) := by
  rcases h with ht | ⟨k, ht, hp⟩
  · rw [fireTimer_none cfg ht]
    exact ⟨Or.inl ht, by split_ifs <;> exact le_rfl⟩
  · rw [fireTimer_some cfg ht]
    by_cases hk : 0 < (k : ℚ)
    · rw [counterStep_pos cfg ctx _ hk]
      have h1k : (1 : ℕ) ≤ k := by exact_mod_cast hk
      have h1q : (1 : ℚ) ≤ (k : ℚ) := by exact_mod_cast h1k
      have hcast : ((k - 1 : ℕ) : ℚ) = (k : ℚ) - 1 := by
        rw [Nat.cast_sub h1k, Nat.cast_one]
      have hmono : coverRate ctx.duration ((k : ℚ) - 1) ≤ coverRate ctx.duration (k : ℚ) :=
        coverRate_mono hd (by linarith) (by linarith)
      constructor
      · right
        refine ⟨k - 1, ?_, ?_⟩
        · rw [doneTick_fst_timer, hcast]
        · rw [doneTick_fst_position, hcast]
      · rw [doneTick_fst_position, hp]
        split_ifs <;> omega
    · rw [counterStep_nonpos cfg ctx _ hk]
      have hk0 : k = 0 := by
        by_contra hne
        exact hk (by exact_mod_cast Nat.pos_of_ne_zero hne)
      subst hk0
      rw [Nat.cast_zero] at hp
      constructor
      · left
        rw [doneTick_fst_timer]
      · rw [doneTick_fst_position, hp]
        split_ifs <;> omega

theorem seg_runTimer (cfg : Config) {ctx : MotionCtx} (hd : 0 ≤ ctx.duration) (n : ℕ)
    {s : St} (h : Seg ctx s) : Seg ctx (runTimer cfg n s) := by
  induction n with
  | zero => exact h
  | succ n ih =>
    rw [runTimer_succ]
    exact (seg_fireTimer cfg hd ih).1

theorem seg_close_cover (cfg : Config) {s : St} (hp : s.position ≠ 0) :
    Seg (ctxClose cfg) (close_cover cfg s).1 := by
  simp only [close_cover]
  rw [if_neg hp]
  show Seg (ctxClose cfg)
    (counterStep cfg (ctxClose cfg) ((cfg.closeDuration : ℕ) : ℚ) _).1
  by_cases hd0 : 0 < ((cfg.closeDuration : ℕ) : ℚ)
  · rw [counterStep_pos cfg _ _ hd0]
    have h1k : (1 : ℕ) ≤ cfg.closeDuration := by exact_mod_cast hd0
    have hcast : ((cfg.closeDuration - 1 : ℕ) : ℚ) = ((cfg.closeDuration : ℕ) : ℚ) - 1 := by
      rw [Nat.cast_sub h1k, Nat.cast_one]
    right
    refine ⟨cfg.closeDuration - 1, ?_, ?_⟩
    · rw [doneTick_fst_timer, hcast]
    · rw [doneTick_fst_position, hcast]
  · rw [counterStep_nonpos cfg _ _ hd0]
    left
    rw [doneTick_fst_timer]

theorem seg_open_cover (cfg : Config) {s : St} (hp : s.position = 0) :
    Seg (ctxOpen cfg) (open_cover cfg s).1 := by
  simp only [open_cover]
  rw [if_pos hp]
  show Seg (ctxOpen cfg)
    (counterStep cfg (ctxOpen cfg) ((cfg.openDuration : ℕ) : ℚ) _).1
  by_cases hd0 : 0 < ((cfg.openDuration : ℕ) : ℚ)
  · rw [counterStep_pos cfg _ _ hd0]
    have h1k : (1 : ℕ) ≤ cfg.openDuration := by exact_mod_cast hd0
    have hcast : ((cfg.openDuration - 1 : ℕ) : ℚ) = ((cfg.openDuration : ℕ) : ℚ) - 1 := by
      rw [Nat.cast_sub h1k, Nat.cast_one]
    right
    refine ⟨cfg.openDuration - 1, ?_, ?_⟩
    · rw [doneTick_fst_timer, hcast]
    · rw [doneTick_fst_position, hcast]
  · rw [counterStep_nonpos cfg _ _ hd0]
    left
    rw [doneTick_fst_timer]

theorem closeFire80 :
    (fireTimer cfg0 (⟨"closing", 80, some ((4 : ℚ), ⟨(5 : ℚ), false, false⟩)⟩ : St)).1
      = ⟨"closing", 60, some ((3 : ℚ), ⟨(5 : ℚ), false, false⟩)⟩ := by
  norm_num [fireTimer, counterStep, doneTick, coverRate, pytrunc]

theorem closeFire60 :
    (fireTimer cfg0 (⟨"closing", 60, some ((3 : ℚ), ⟨(5 : ℚ), false, false⟩)⟩ : St)).1
      = ⟨"closing", 40, some ((2 : ℚ), ⟨(5 : ℚ), false, false⟩)⟩ := by
  norm_num [fireTimer, counterStep, doneTick, coverRate, pytrunc]

theorem closeFire40 :
    (fireTimer cfg0 (⟨"closing", 40, some ((2 : ℚ), ⟨(5 : ℚ), false, false⟩)⟩ : St)).1
      = ⟨"closing", 20, some ((1 : ℚ), ⟨(5 : ℚ), false, false⟩)⟩ := by
  norm_num [fireTimer, counterStep, doneTick, coverRate, pytrunc]

theorem closeFire20 :
    (fireTimer cfg0 (⟨"closing", 20, some ((1 : ℚ), ⟨(5 : ℚ), false, false⟩)⟩ : St)).1
      = ⟨"closed", 0, some ((0 : ℚ), ⟨(5 : ℚ), false, false⟩)⟩ := by
  norm_num [fireTimer, counterStep, doneTick, coverRate, pytrunc]

theorem closeFireLast :
    (fireTimer cfg0 (⟨"closed", 0, some ((0 : ℚ), ⟨(5 : ℚ), false, false⟩)⟩ : St)).1
      = ⟨"closed", 0, none⟩ := by
  norm_num [fireTimer, counterStep, doneTick, coverRate, pytrunc]

theorem closeRun1 : runTimer cfg0 1 afterClose
    = ⟨"closing", 60, some ((3 : ℚ), ⟨(5 : ℚ), false, false⟩)⟩ :=
  runTimer_step cfg0 0 _ _ _ afterClose_eq closeFire80

theorem closeRun2 : runTimer cfg0 2 afterClose
    = ⟨"closing", 40, some ((2 : ℚ), ⟨(5 : ℚ), false, false⟩)⟩ :=
  runTimer_step cfg0 1 _ _ _ closeRun1 closeFire60

theorem closeRun3 : runTimer cfg0 3 afterClose
    = ⟨"closing", 20, some ((1 : ℚ), ⟨(5 : ℚ), false, false⟩)⟩ :=
  runTimer_step cfg0 2 _ _ _ closeRun2 closeFire40

theorem closeRun4 : runTimer cfg0 4 afterClose
    = ⟨"closed", 0, some ((0 : ℚ), ⟨(5 : ℚ), false, false⟩)⟩ :=
  runTimer_step cfg0 3 _ _ _ closeRun3 closeFire20

theorem closeRun5 : runTimer cfg0 5 afterClose = ⟨"closed", 0, none⟩ :=
  runTimer_step cfg0 4 _ _ _ closeRun4 closeFireLast

/-- C10: `stop_cover` never modifies the stored state string, the stored
position or the pending timer, in any state; its only effect is the pulse on
the stop pin: drive it to the active level (0 when the relay is inverted,
else 1), hold for the 1-second relay time, release to the complement level. -/
theorem C10_stop_cover_pulse_only (cfg : Config) (s : St) :
    stop_cover cfg s =
      (s, [Action.write cfg.stopPin (if cfg.invertRelay then 0 else 1),
           Action.sleepFor 1,
           Action.write cfg.stopPin (if cfg.invertRelay then 1 else 0)]) := by
  cases h : cfg.invertRelay <;> simp [stop_cover, trigger, activeLevel, h]

/-- C2 counterexample: with `close_duration = 5`, calling `close_cover` on a
fully open cover publishes position 80 and leaves a pending timer; calling
`stop_cover` then leaves the whole state, timer included, unchanged, and the
next timer tick still changes the published position from 80 to 60.  This
refutes the claim that `stop_cover` cancels the timer and freezes the
position. -/
theorem C2_stop_cover_cex :
    (stop_cover cfg0 afterClose).1 = afterClose ∧
    afterClose.timer ≠ none ∧
    afterClose.position = 80 ∧
    (fireTimer cfg0 (stop_cover cfg0 afterClose).1).1.position = 60 := by
  have hs : (stop_cover cfg0 afterClose).1 = afterClose := rfl
  refine ⟨hs, ?_, ?_, ?_⟩
  · rw [afterClose_eq]
    simp
  · rw [afterClose_eq]
  · rw [hs, afterClose_eq, closeFire80]

/-- C2 (amended): `stop_cover` only pulses the stop relay; it does not
cancel the active motion timer and does not touch the stored position or
state, so every pending tick behaves after `stop_cover` exactly as it would
have without it, and the countdown keeps updating the position. -/
theorem C2_stop_cover_keeps_timer (cfg : Config) (s : St) :
    (stop_cover cfg s).1 = s ∧
      fireTimer cfg (stop_cover cfg s).1 = fireTimer cfg s :=
  ⟨rfl, rfl⟩

/-- C8: calling `open_cover` when the cover is not closed (position ≠ 0,
in particular when already open at position 100) is a rejected no-op: the
state string, the position, the timer and the relay pins (the recorded
action list is empty) are all left unchanged. -/
theorem C8_open_cover_rejected (cfg : Config) (s : St) (h : s.position ≠ 0) :
    open_cover cfg s = (s, []) := by
  simp only [open_cover]
  rw [if_neg h]

/-- Witness for C8 at a concrete input: a fully open cover. -/
theorem C8_open_cover_rejected_witness :
    s100.position ≠ 0 ∧ open_cover cfg0 s100 = (s100, []) :=
  ⟨by decide, C8_open_cover_rejected cfg0 s100 (by decide)⟩

/-- C7 counterexample: restoring a persisted `"open"` state leaves the
position at its constructor default 0, so the restored state is Open while
the position is 0, not 100.  This refutes both the claim that the position
value is seeded from the persisted pair and the claim that Open ⇒ position
= 100 holds after restore. -/
theorem C7_restore_cex :
    (restoreState (some "open") initSt).state = "open" ∧
    (restoreState (some "open") initSt).position = 0 :=
  ⟨rfl, rfl⟩

/-- C7 (amended): at startup only the state string is seeded from the
persisted state; the position always stays at its default 0 (and with no
persisted state the controller stays at the default Closed/0).  Hence
Closed ⇒ position = 0 holds at startup, but Open ⇒ position = 100 does
not after restoring an Open state. -/
theorem C7_restore_state_only (last : Option String) :
    (restoreState last initSt).position = 0 ∧
    (restoreState last initSt).state =
      (match last with | none => "closed" | some st => st) ∧
    restoreState none initSt = initSt := by
  cases last <;> exact ⟨rfl, rfl, rfl⟩

/-- C4 (code bug): with `open_duration = 0` and the cover closed at
position 0, `open_cover` passes the guard, pulses the open relay, and fires
the zero-duration callback synchronously — but the `duration == 0` special
case sets `rate = 100`, and an opening move publishes `100 - rate = 0`, so
the cover ends at position 0 with state `"closed"` (and no timer), not at
position 100 as the claim states. -/
theorem C4_zero_duration_open_bug :
    (open_cover cfgZ initSt).1 = { state := "closed", position := 0, timer := none } ∧
    (open_cover cfgZ initSt).2 ≠ [] := by
  constructor
  · norm_num [open_cover, cfgZ, cfg0, initSt, update_position, counterStep,
      doneTick, coverRate, pytrunc, trigger, activeLevel]
  · norm_num [open_cover, cfgZ, cfg0, initSt, update_position, counterStep,
      doneTick, coverRate, pytrunc, trigger, activeLevel]
    exact List.cons_ne_nil _ _

/-- C3 counterexample: with `close_duration = 5` and the cover fully open,
`close_cover` runs the first tick callback (remaining count 4)
synchronously at command time: the published position is already 80 when
the command returns, before any one-second tick interval has elapsed, and
after 2 elapsed tick intervals the position is 40, not 60.  This refutes
the claim that every tick callback, including the first, is delivered only
after its tick interval. -/
theorem C3_close_timing_cex :
    afterClose.position = 80 ∧ (runTimer cfg0 2 afterClose).position = 40 := by
  constructor
  · rw [afterClose_eq]
  · rw [closeRun2]

/-- C3 (amended): with `close_duration = 5`, starting from position 100 in
state Open, `close_cover` publishes position 80 synchronously at command
time (the first callback, with value `total_ticks - 1 = 4`, does not wait
for its interval); after 1 elapsed second the position is 60, after 2
seconds it is 40, the position reaches 0 with state Closed after 4 elapsed
seconds, and a duplicate final tick at 5 seconds leaves position 0, state
Closed, with no further timer scheduled. -/
theorem C3_close_timeline :
    afterClose.position = 80 ∧
    (runTimer cfg0 1 afterClose).position = 60 ∧
    (runTimer cfg0 2 afterClose).position = 40 ∧
    (runTimer cfg0 4 afterClose).position = 0 ∧
    (runTimer cfg0 4 afterClose).state = "closed" ∧
    (runTimer cfg0 5 afterClose).position = 0 ∧
    (runTimer cfg0 5 afterClose).state = "closed" ∧
    (runTimer cfg0 5 afterClose).timer = none := by
  refine ⟨?_, ?_, ?_, ?_, ?_, ?_, ?_, ?_⟩
  · rw [afterClose_eq]
  · rw [closeRun1]
  · rw [closeRun2]
  · rw [closeRun4]
  · rw [closeRun4]
  · rw [closeRun5]
  · rw [closeRun5]
  · rw [closeRun5]

/-- C1 (code bug): `set_cover_position(50)` on a cover at position 0 with
`open_duration = 5` starts a countdown of `50 / 5 = 10` ticks, but the
`_done` rate formula ignores the target, so the motion runs all the way to
position 100 and state `"open"`: the final position misses the target 50 by
50 percent, far beyond the one-tick tolerance `100 / 5 = 20` the claim
allows. -/
theorem C1_set_position_endpoint_bug :
    afterSet50.position = 10 ∧
    (runTimer cfg0 10 afterSet50).position = 100 ∧
    (runTimer cfg0 10 afterSet50).state = "open" ∧
    (runTimer cfg0 10 afterSet50).timer = none := by
  have hA : afterSet50 = (⟨"closed", 10, some ((9 : ℚ), ⟨(10 : ℚ), true, true⟩)⟩ : St) := by
    norm_num [afterSet50, set_cover_position, initSt, cfg0, update_position,
      counterStep, doneTick, coverRate, pytrunc, trigger, activeLevel]
  have f9 : (fireTimer cfg0 (⟨"closed", 10, some ((9 : ℚ), ⟨(10 : ℚ), true, true⟩)⟩ : St)).1
      = ⟨"closed", 20, some ((8 : ℚ), ⟨(10 : ℚ), true, true⟩)⟩ := by
    norm_num [fireTimer, counterStep, doneTick, coverRate, pytrunc]
  have f8 : (fireTimer cfg0 (⟨"closed", 20, some ((8 : ℚ), ⟨(10 : ℚ), true, true⟩)⟩ : St)).1
      = ⟨"closed", 30, some ((7 : ℚ), ⟨(10 : ℚ), true, true⟩)⟩ := by
    norm_num [fireTimer, counterStep, doneTick, coverRate, pytrunc]
  have f7 : (fireTimer cfg0 (⟨"closed", 30, some ((7 : ℚ), ⟨(10 : ℚ), true, true⟩)⟩ : St)).1
      = ⟨"closed", 40, some ((6 : ℚ), ⟨(10 : ℚ), true, true⟩)⟩ := by
    norm_num [fireTimer, counterStep, doneTick, coverRate, pytrunc]
  have f6 : (fireTimer cfg0 (⟨"closed", 40, some ((6 : ℚ), ⟨(10 : ℚ), true, true⟩)⟩ : St)).1
      = ⟨"closed", 50, some ((5 : ℚ), ⟨(10 : ℚ), true, true⟩)⟩ := by
    norm_num [fireTimer, counterStep, doneTick, coverRate, pytrunc]
  have f5 : (fireTimer cfg0 (⟨"closed", 50, some ((5 : ℚ), ⟨(10 : ℚ), true, true⟩)⟩ : St)).1
      = ⟨"closed", 60, some ((4 : ℚ), ⟨(10 : ℚ), true, true⟩)⟩ := by
    norm_num [fireTimer, counterStep, doneTick, coverRate, pytrunc]
  have f4 : (fireTimer cfg0 (⟨"closed", 60, some ((4 : ℚ), ⟨(10 : ℚ), true, true⟩)⟩ : St)).1
      = ⟨"closed", 70, some ((3 : ℚ), ⟨(10 : ℚ), true, true⟩)⟩ := by
    norm_num [fireTimer, counterStep, doneTick, coverRate, pytrunc]
  have f3 : (fireTimer cfg0 (⟨"closed", 70, some ((3 : ℚ), ⟨(10 : ℚ), true, true⟩)⟩ : St)).1
      = ⟨"closed", 80, some ((2 : ℚ), ⟨(10 : ℚ), true, true⟩)⟩ := by
    norm_num [fireTimer, counterStep, doneTick, coverRate, pytrunc]
  have f2 : (fireTimer cfg0 (⟨"closed", 80, some ((2 : ℚ), ⟨(10 : ℚ), true, true⟩)⟩ : St)).1
      = ⟨"closed", 90, some ((1 : ℚ), ⟨(10 : ℚ), true, true⟩)⟩ := by
    norm_num [fireTimer, counterStep, doneTick, coverRate, pytrunc]
  have f1 : (fireTimer cfg0 (⟨"closed", 90, some ((1 : ℚ), ⟨(10 : ℚ), true, true⟩)⟩ : St)).1
      = ⟨"open", 100, some ((0 : ℚ), ⟨(10 : ℚ), true, true⟩)⟩ := by
    norm_num [fireTimer, counterStep, doneTick, coverRate, pytrunc, stop_cover,
      trigger, activeLevel, cfg0]
  have f0 : (fireTimer cfg0 (⟨"open", 100, some ((0 : ℚ), ⟨(10 : ℚ), true, true⟩)⟩ : St)).1
      = ⟨"open", 100, none⟩ := by
    norm_num [fireTimer, counterStep, doneTick, coverRate, pytrunc, stop_cover,
      trigger, activeLevel, cfg0]
  have e1 : runTimer cfg0 1 afterSet50
      = ⟨"closed", 20, some ((8 : ℚ), ⟨(10 : ℚ), true, true⟩)⟩ :=
    runTimer_step cfg0 0 _ _ _ hA f9
  have e2 : runTimer cfg0 2 afterSet50
      = ⟨"closed", 30, some ((7 : ℚ), ⟨(10 : ℚ), true, true⟩)⟩ :=
    runTimer_step cfg0 1 _ _ _ e1 f8
  have e3 : runTimer cfg0 3 afterSet50
      = ⟨"closed", 40, some ((6 : ℚ), ⟨(10 : ℚ), true, true⟩)⟩ :=
    runTimer_step cfg0 2 _ _ _ e2 f7
  have e4 : runTimer cfg0 4 afterSet50
      = ⟨"closed", 50, some ((5 : ℚ), ⟨(10 : ℚ), true, true⟩)⟩ :=
    runTimer_step cfg0 3 _ _ _ e3 f6
  have e5 : runTimer cfg0 5 afterSet50
      = ⟨"closed", 60, some ((4 : ℚ), ⟨(10 : ℚ), true, true⟩)⟩ :=
    runTimer_step cfg0 4 _ _ _ e4 f5
  have e6 : runTimer cfg0 6 afterSet50
      = ⟨"closed", 70, some ((3 : ℚ), ⟨(10 : ℚ), true, true⟩)⟩ :=
    runTimer_step cfg0 5 _ _ _ e5 f4
  have e7 : runTimer cfg0 7 afterSet50
      = ⟨"closed", 80, some ((2 : ℚ), ⟨(10 : ℚ), true, true⟩)⟩ :=
    runTimer_step cfg0 6 _ _ _ e6 f3
  have e8 : runTimer cfg0 8 afterSet50
      = ⟨"closed", 90, some ((1 : ℚ), ⟨(10 : ℚ), true, true⟩)⟩ :=
    runTimer_step cfg0 7 _ _ _ e7 f2
  have e9 : runTimer cfg0 9 afterSet50
      = ⟨"open", 100, some ((0 : ℚ), ⟨(10 : ℚ), true, true⟩)⟩ :=
    runTimer_step cfg0 8 _ _ _ e8 f1
  have e10 : runTimer cfg0 10 afterSet50 = ⟨"open", 100, none⟩ :=
    runTimer_step cfg0 9 _ _ _ e9 f0
  refine ⟨?_, ?_, ?_, ?_⟩
  · rw [hA]
  · rw [e10]
  · rw [e10]
  · rw [e10]

/-- C5 counterexample: `set_cover_position(33)` from the initial closed
state with `open_duration = 5` computes the fractional tick count
`33 / 5 = 6.6`; after 6 elapsed tick intervals the remaining count has gone
negative (`-0.4`) and the published position is `100 - int(-0.4 / 6.6 * 100)
= 106`, outside [0, 100].  This refutes the claim that the stored position
is always in [0, 100] for every command sequence. -/
theorem C5_position_range_cex :
    (runTimer cfg0 6 afterSet33).position = 106 ∧
    ¬ ((runTimer cfg0 6 afterSet33).position ≤ 100) := by
  have hA : afterSet33
      = (⟨"closed", 16, some ((28/5 : ℚ), ⟨(33/5 : ℚ), true, true⟩)⟩ : St) := by
    norm_num [afterSet33, set_cover_position, initSt, cfg0, update_position,
      counterStep, doneTick, coverRate, pytrunc, trigger, activeLevel]
  have g1 : (fireTimer cfg0 (⟨"closed", 16, some ((28/5 : ℚ), ⟨(33/5 : ℚ), true, true⟩)⟩ : St)).1
      = ⟨"closed", 31, some ((23/5 : ℚ), ⟨(33/5 : ℚ), true, true⟩)⟩ := by
    norm_num [fireTimer, counterStep, doneTick, coverRate, pytrunc]
  have g2 : (fireTimer cfg0 (⟨"closed", 31, some ((23/5 : ℚ), ⟨(33/5 : ℚ), true, true⟩)⟩ : St)).1
      = ⟨"closed", 46, some ((18/5 : ℚ), ⟨(33/5 : ℚ), true, true⟩)⟩ := by
    norm_num [fireTimer, counterStep, doneTick, coverRate, pytrunc]
  have g3 : (fireTimer cfg0 (⟨"closed", 46, some ((18/5 : ℚ), ⟨(33/5 : ℚ), true, true⟩)⟩ : St)).1
      = ⟨"closed", 61, some ((13/5 : ℚ), ⟨(33/5 : ℚ), true, true⟩)⟩ := by
    norm_num [fireTimer, counterStep, doneTick, coverRate, pytrunc]
  have g4 : (fireTimer cfg0 (⟨"closed", 61, some ((13/5 : ℚ), ⟨(33/5 : ℚ), true, true⟩)⟩ : St)).1
      = ⟨"closed", 76, some ((8/5 : ℚ), ⟨(33/5 : ℚ), true, true⟩)⟩ := by
    norm_num [fireTimer, counterStep, doneTick, coverRate, pytrunc]
  have g5 : (fireTimer cfg0 (⟨"closed", 76, some ((8/5 : ℚ), ⟨(33/5 : ℚ), true, true⟩)⟩ : St)).1
      = ⟨"closed", 91, some ((3/5 : ℚ), ⟨(33/5 : ℚ), true, true⟩)⟩ := by
    norm_num [fireTimer, counterStep, doneTick, coverRate, pytrunc]
  have g6 : (fireTimer cfg0 (⟨"closed", 91, some ((3/5 : ℚ), ⟨(33/5 : ℚ), true, true⟩)⟩ : St)).1
      = ⟨"closed", 106, some ((-2/5 : ℚ), ⟨(33/5 : ℚ), true, true⟩)⟩ := by
    norm_num [fireTimer, counterStep, doneTick, coverRate, pytrunc, Int.ceil_neg]
  have e1 : runTimer cfg0 1 afterSet33
      = ⟨"closed", 31, some ((23/5 : ℚ), ⟨(33/5 : ℚ), true, true⟩)⟩ :=
    runTimer_step cfg0 0 _ _ _ hA g1
  have e2 : runTimer cfg0 2 afterSet33
      = ⟨"closed", 46, some ((18/5 : ℚ), ⟨(33/5 : ℚ), true, true⟩)⟩ :=
    runTimer_step cfg0 1 _ _ _ e1 g2
  have e3 : runTimer cfg0 3 afterSet33
      = ⟨"closed", 61, some ((13/5 : ℚ), ⟨(33/5 : ℚ), true, true⟩)⟩ :=
    runTimer_step cfg0 2 _ _ _ e2 g3
  have e4 : runTimer cfg0 4 afterSet33
      = ⟨"closed", 76, some ((8/5 : ℚ), ⟨(33/5 : ℚ), true, true⟩)⟩ :=
    runTimer_step cfg0 3 _ _ _ e3 g4
  have e5 : runTimer cfg0 5 afterSet33
      = ⟨"closed", 91, some ((3/5 : ℚ), ⟨(33/5 : ℚ), true, true⟩)⟩ :=
    runTimer_step cfg0 4 _ _ _ e4 g5
  have e6 : runTimer cfg0 6 afterSet33
      = ⟨"closed", 106, some ((-2/5 : ℚ), ⟨(33/5 : ℚ), true, true⟩)⟩ :=
    runTimer_step cfg0 5 _ _ _ e5 g6
  rw [e6]
  norm_num

/-- C5 (amended): for motions started by `close_cover` or `open_cover`
(whose tick counts are the configured natural-number durations), the stored
position stays in [0, 100] at the command itself and after every elapsed
tick, provided the cover starts from a position in [0, 100] with no pending
timer.  The unrestricted claim fails only for `set_cover_position`, whose
fractional tick count can drive the final synchronous tick negative (see
the counterexample). -/
theorem C5_open_close_position_range (cfg : Config) (s : St) (n : ℕ)
    (h0 : 0 ≤ s.position) (h1 : s.position ≤ 100) (ht : s.timer = none) :
    (0 ≤ (runTimer cfg n (close_cover cfg s).1).position ∧
      (runTimer cfg n (close_cover cfg s).1).position ≤ 100) ∧
    (0 ≤ (runTimer cfg n (open_cover cfg s).1).position ∧
      (runTimer cfg n (open_cover cfg s).1).position ≤ 100) := by
  have hc := inRange_runTimer cfg n (inRange_close_cover cfg h0 h1 ht)
  have ho := inRange_runTimer cfg n (inRange_open_cover cfg h0 h1 ht)
  exact ⟨hc.1, ho.1⟩

/-- Witness for the amended C5 at a concrete input: a fully open cover,
closing, two elapsed ticks. -/
theorem C5_open_close_position_range_witness :
    (0 ≤ s100.position ∧ s100.position ≤ 100 ∧ s100.timer = none) ∧
    (0 ≤ (runTimer cfg0 2 (close_cover cfg0 s100).1).position ∧
      (runTimer cfg0 2 (close_cover cfg0 s100).1).position ≤ 100) ∧
    (0 ≤ (runTimer cfg0 2 (open_cover cfg0 s100).1).position ∧
      (runTimer cfg0 2 (open_cover cfg0 s100).1).position ≤ 100) :=
  ⟨⟨by decide, by decide, rfl⟩,
    (C5_open_close_position_range cfg0 s100 2 (by decide) (by decide) rfl).1,
    (C5_open_close_position_range cfg0 s100 2 (by decide) (by decide) rfl).2⟩

/-- C6: within a single motion segment the published positions are
monotonic: after a `close_cover` that actually starts (position ≠ 0) the
position after `n + 1` elapsed ticks is at most the position after `n`
ticks, and after an `open_cover` that actually starts (position = 0) the
position is non-decreasing tick by tick; no reversal occurs without an
intervening command. -/
theorem C6_motion_monotone (cfg : Config) (s : St) (n : ℕ) :
    (s.position ≠ 0 →
      (runTimer cfg (n + 1) (close_cover cfg s).1).position ≤
        (runTimer cfg n (close_cover cfg s).1).position) ∧
    (s.position = 0 →
      (runTimer cfg n (open_cover cfg s).1).position ≤
        (runTimer cfg (n + 1) (open_cover cfg s).1).position) := by
  constructor
  · intro hp
    have hd : (0 : ℚ) ≤ (ctxClose cfg).duration := Nat.cast_nonneg _
    have hstep := (seg_fireTimer cfg hd (seg_runTimer cfg hd n (seg_close_cover cfg hp))).2
    rw [runTimer_succ]
    simpa [ctxClose] using hstep
  · intro hp
    have hd : (0 : ℚ) ≤ (ctxOpen cfg).duration := Nat.cast_nonneg _
    have hstep := (seg_fireTimer cfg hd (seg_runTimer cfg hd n (seg_open_cover cfg hp))).2
    rw [runTimer_succ]
    simpa [ctxOpen] using hstep

/-- Witness for C6 at concrete inputs: closing from 100 and opening from 0,
first elapsed tick. -/
theorem C6_motion_monotone_witness :
    (s100.position ≠ 0 ∧
      (runTimer cfg0 1 (close_cover cfg0 s100).1).position ≤
        (runTimer cfg0 0 (close_cover cfg0 s100).1).position) ∧
    (initSt.position = 0 ∧
      (runTimer cfg0 0 (open_cover cfg0 initSt).1).position ≤
        (runTimer cfg0 1 (open_cover cfg0 initSt).1).position) :=
  ⟨⟨by decide, (C6_motion_monotone cfg0 s100 0).1 (by decide)⟩,
    ⟨rfl, (C6_motion_monotone cfg0 initSt 0).2 rfl⟩⟩

/-- C9 counterexample: `set_cover_position` with the out-of-range target
150 on the freshly initialized cover (closed, position 0, `open_duration =
5`) is not rejected and is not a no-op: it pulses the open relay (nonempty
action list), starts a 30-tick countdown, and immediately publishes
position 4.  No error is surfaced — the command silently runs. -/
theorem C9_out_of_range_cex :
    afterSet150.position = 4 ∧
    afterSet150.timer = some ((29 : ℚ), ⟨(30 : ℚ), true, true⟩) ∧
    (set_cover_position cfg0 150 initSt).2 ≠ [] := by
  have hA : afterSet150
      = (⟨"closed", 4, some ((29 : ℚ), ⟨(30 : ℚ), true, true⟩)⟩ : St) := by
    norm_num [afterSet150, set_cover_position, initSt, cfg0, update_position,
      counterStep, doneTick, coverRate, pytrunc, trigger, activeLevel]
  refine ⟨by rw [hA], by rw [hA], ?_⟩
  norm_num [set_cover_position, initSt, cfg0, update_position, counterStep,
    doneTick, coverRate, pytrunc, trigger, activeLevel]
  exact List.cons_ne_nil _ _

/-- C9 (amended): `set_cover_position` performs no range validation and
surfaces no rejection: for any target strictly above the current position
(with a nonzero configured `open_duration`), including targets above 100,
it pulses a relay (nonempty action list) and starts a motion timer. -/
theorem C9_no_range_validation (cfg : Config) (t : ℤ) (s : St)
    (hlt : s.position < t) (hd : cfg.openDuration ≠ 0) :
    (set_cover_position cfg t s).2 ≠ [] ∧
      (set_cover_position cfg t s).1.timer ≠ none := by
  have hb : decide (s.position < t) = true := decide_eq_true hlt
  have hq : (0 : ℚ) < ((t : ℚ) - (s.position : ℚ)) / (cfg.openDuration : ℚ) := by
    apply div_pos
    · have h1 : (s.position : ℚ) < (t : ℚ) := by exact_mod_cast hlt
      linarith
    · exact_mod_cast Nat.pos_of_ne_zero hd
  constructor
  · simp [set_cover_position, hb, hq.ne', trigger]
  · simp [set_cover_position, hb, hq.ne', hq, update_position, counterStep,
      doneTick_fst_timer]

/-- Witness for the amended C9 at a concrete input: target 150 from the
initial state. -/
theorem C9_no_range_validation_witness :
    (initSt.position < 150 ∧ cfg0.openDuration ≠ 0) ∧
    ((set_cover_position cfg0 150 initSt).2 ≠ [] ∧
      (set_cover_position cfg0 150 initSt).1.timer ≠ none) :=
  ⟨⟨by decide, by decide⟩,
    C9_no_range_validation cfg0 150 initSt (by decide) (by decide)⟩

end OpiGpio
